import Mathlib

/-!
Shallow embedding of parts of the deadline-cloud-worker-agent repository:

* `sessions/actions/run_attachment_download.py` (`AttachmentDownloadAction`),
* `sessions/actions/run_attachment_upload.py` (`AttachmentUploadAction`),
* `sessions/actions/run_step_task.py` (`RunStepTaskAction`),
* `startup/settings.py` (`WorkerSettings` and its settings sources),
* `startup/cli_args.py` (the daemon argument-parser surface).

Python dictionaries are embedded as association lists in insertion order,
machine state (platform, environment variables, interpreter path, embedded
helper-script file contents) as an explicit `SysState`, and the opaque
`deadline.job_attachments` collaborator functions as fields of an
`AssetSync` record of functions.  Fallible code returns `Except`.
-/

namespace DWA

/-! ### Data model: job attachments (from `job_entities` usage and
`deadline.job_attachments.models` as consumed by the actions) -/

/-- Job-attachment settings carried on the JOB_DETAILS entity
(`job_attachment_settings` attribute; bucket and root prefix are optional
and asserted non-None by the actions).  The source field `root_prefix` is
named `root_pfx` here. -/
structure JobAttachmentSettings where
  s3_bucket_name : Option String
  root_pfx : Option String
deriving Repr, DecidableEq

/-- A storage-profile path mapping rule from JOB_DETAILS
(`session._job_details.path_mapping_rules`), with string paths. -/
structure SrcPathMappingRule where
  source_path : String
  destination_path : String
deriving Repr, DecidableEq

/-- The JOB_DETAILS entity fields consumed by the attachment actions. -/
structure JobDetails where
  job_attachment_settings : Option JobAttachmentSettings
  path_mapping_rules : List SrcPathMappingRule
deriving Repr, DecidableEq

/-- One manifest-properties record from the JOB_ATTACHMENT_DETAILS entity
(`session._job_attachment_details.manifests` entries; snake_case fields). -/
structure ManifestPropertiesIn where
  root_path : String
  file_system_location_name : Option String
  root_path_format : String
  input_manifest_path : Option String
  input_manifest_hash : Option String
  output_relative_directories : Option (List String)
deriving Repr, DecidableEq

/-- The JOB_ATTACHMENT_DETAILS entity fields consumed by the actions.
`job_attachments_file_system` is the string value of the
`JobAttachmentsFileSystem` enum (`"COPIED"` or `"VIRTUAL"`). -/
structure JobAttachmentDetails where
  manifests : List ManifestPropertiesIn
  job_attachments_file_system : String
deriving Repr, DecidableEq

/-- STEP_DETAILS entity fields consumed by `AttachmentDownloadAction`. -/
structure StepDetails where
  step_id : String
  dependencies : List String
deriving Repr, DecidableEq

/-- `deadline.job_attachments.models.ManifestProperties` (camelCase model
built by `AttachmentDownloadAction.start`). -/
structure ManifestProperties where
  rootPath : String
  fileSystemLocationName : Option String
  rootPathFormat : String
  inputManifestPath : Option String
  inputManifestHash : Option String
  outputRelativeDirectories : Option (List String)
deriving Repr, DecidableEq

/-- `deadline.job_attachments.models.Attachments`. -/
structure Attachments where
  manifests : List ManifestProperties
  fileSystem : String
deriving Repr, DecidableEq

/-- `deadline.job_attachments.models.JobAttachmentS3Settings`.  The source
field `rootPrefix` is named `rootPfx` here. -/
structure JobAttachmentS3Settings where
  s3BucketName : String
  rootPfx : String
deriving Repr, DecidableEq

/-- `JobAttachmentS3Settings.to_s3_root_uri`: the `s3://bucket/rootPrefix`
URI. -/
def JobAttachmentS3Settings.to_s3_root_uri (s : JobAttachmentS3Settings) : String :=
  "s3://" ++ s.s3BucketName ++ "/" ++ s.rootPfx

/-- `deadline.job_attachments.models.PathMappingRule` (a dataclass with
string paths), as produced by `generate_dynamic_path_mapping`. -/
structure JaPathMappingRule where
  source_path_format : String
  source_path : String
  destination_path : String
deriving Repr, DecidableEq

/-- Split a character list at a separator character; empty pieces are
kept, and the empty list yields one empty piece (Python `str.split(sep)`
semantics). -/
def splitChars (sep : Char) : List Char → List (List Char)
  | [] => [[]]
  | c :: cs =>
    let r := splitChars sep cs
    if c = sep then [] :: r
    else
      match r with
      | h :: t => (c :: h) :: t
      | [] => [[c]]

/-- Python `str.split(sep)` for a one-character separator. -/
def strSplitOn (sep : Char) (s : String) : List String :=
  (splitChars sep s.data).map (fun l => String.mk l)

/-- Python `str.startswith`. -/
def strStartsWith (pre s : String) : Bool :=
  pre.data.isPrefixOf s.data

/-- Python `str.lower` (over the ASCII range the agent uses). -/
def strToLower (s : String) : String :=
  String.mk (s.data.map Char.toLower)

/-- Fuel-indexed left-to-right replacement of non-overlapping occurrences
of `pat` by `sub`. -/
def replaceFuel (pat sub : List Char) : Nat → List Char → List Char
  | _, [] => []
  | 0, l => l
  | fuel + 1, c :: cs =>
    if pat.isPrefixOf (c :: cs) then
      sub ++ replaceFuel pat sub fuel ((c :: cs).drop pat.length)
    else
      c :: replaceFuel pat sub fuel cs

/-- Python `str.replace` (all non-overlapping occurrences, left to
right; the agent only uses a non-empty pattern). -/
def strReplace (s pat sub : String) : String :=
  if pat.isEmpty then s
  else String.mk (replaceFuel pat.data sub.data s.data.length s.data)

/-- The parts of a POSIX pure path as computed by `pathlib.PurePosixPath`:
an absolute path contributes a leading `/` part; empty and `.` components
are dropped. -/
def pathParts (s : String) : List String :=
  let comps :=
    ((strSplitOn '/' s).filter (fun c => c ≠ "")).filter (fun c => c ≠ ".")
  if strStartsWith "/" s then "/" :: comps else comps

/-- `openjd.sessions.PathMappingRule`: paths are `PurePath`s, embedded here
by their `parts` lists. -/
structure OpenjdPathMapping where
  source_path_format : String
  source_path : List String
  destination_path : List String
deriving Repr, DecidableEq

/-- `openjd.sessions.PathMappingRule.from_dict` applied to
`dataclasses.asdict` of a job-attachment `PathMappingRule`: the string
paths become pure paths. -/
def OpenjdPathMapping.from_dict (r : JaPathMappingRule) : OpenjdPathMapping :=
  { source_path_format := r.source_path_format
    source_path := pathParts r.source_path
    destination_path := pathParts r.destination_path }

/-- The sort performed in `AttachmentDownloadAction.start`:
`rules.sort(key=lambda rule: -len(rule.source_path.parts))`.
Python `list.sort` is a stable ascending sort by the key, i.e. a stable
sort by non-increasing count of source-path parts; all stable sorts under
one key agree, so the stable `List.insertionSort` embeds it exactly. -/
def pySortPathMappingRules (rules : List OpenjdPathMapping) : List OpenjdPathMapping :=
  rules.insertionSort (fun a b => b.source_path.length ≤ a.source_path.length)

/-! ### Step scripts (openjd.model.v2023_09 as constructed by the actions) -/

/-- `openjd.model.v2023_09.EmbeddedFileText` as constructed by the actions
(`type` is always TEXT). -/
structure EmbeddedFileText where
  name : String
  filename : String
  fileType : String
  data : String
deriving Repr, DecidableEq

/-- `openjd.model.v2023_09.Action`: the command and its arguments. -/
structure ScriptAction where
  command : String
  args : List String
deriving Repr, DecidableEq

/-- `openjd.model.v2023_09.StepActions`. -/
structure StepActions where
  onRun : ScriptAction
deriving Repr, DecidableEq

/-- `openjd.model.v2023_09.StepScript`. -/
structure StepScript where
  actions : StepActions
  embeddedFiles : List EmbeddedFileText
deriving Repr, DecidableEq

/-! ### Machine and session state -/

/-- `openjd.sessions` session users: `PosixSessionUser` or
`WindowsSessionUser`. -/
inductive SessionUser where
  | posix (user group : String)
  | windows (user : String)
deriving Repr, DecidableEq

/-- The machine state the actions read: `os.name`, `sys.platform`,
`os.environ`, the interpreter path (`sys.executable`, split into directory
and file name), and the contents of the embedded helper-script files
colocated with the agent. -/
structure SysState where
  os_name : String
  platform : String
  environ : List (String × String)
  executable_dir : String
  executable_name : String
  download_script_data : String
  upload_script_data : String

/-- The interpreter used for helper step-scripts:
`Path(sys.executable).parent / name.lower().replace("pythonservice.exe", "python.exe")`
(the Windows service-host variant is remapped to the normal variant). -/
def python_path (sys : SysState) : String :=
  sys.executable_dir ++ "/" ++
    (strReplace (strToLower sys.executable_name) "pythonservice.exe" "python.exe")

/-- `deadline.job_attachments.os_file_permission` settings as built by
`AttachmentDownloadAction._start_vfs` (POSIX modes are the octal `0o20`
literals; Windows modes are `WindowsPermissionEnum.WRITE`). -/
inductive FileSystemPermissionSettings where
  | posix (os_user os_group : String) (dir_mode file_mode : Nat)
  | windows (os_user : String) (dir_mode file_mode : String)
deriving Repr, DecidableEq

/-- Python exception outcomes of the embedded action code. -/
inductive AgentError where
  | runtimeError (msg : String)
  | valueError (msg : String)
  | assertionError (msg : String)
deriving Repr, DecidableEq

instance {ε α : Type _} [DecidableEq ε] [DecidableEq α] :
    DecidableEq (Except ε α) := fun x y =>
  match x, y with
  | .ok a, .ok b =>
      if h : a = b then .isTrue (by rw [h])
      else .isFalse (by intro hc; cases hc; exact h rfl)
  | .error a, .error b =>
      if h : a = b then .isTrue (by rw [h])
      else .isFalse (by intro hc; cases hc; exact h rfl)
  | .ok _, .error _ => .isFalse (by intro hc; cases hc)
  | .error _, .ok _ => .isFalse (by intro hc; cases hc)

/-- Opaque aggregated asset manifest contents
(`deadline.job_attachments.asset_manifests.BaseAssetManifest`): only passed
between the collaborator functions, never inspected by the agent. -/
structure BaseAssetManifest where
  contents : String
deriving Repr, DecidableEq

/-- The opaque `deadline.job_attachments` transfer capability
(`session._asset_sync`), embedded as a record of uninterpreted functions.
Dictionaries appear as association lists in insertion order. -/
structure AssetSync where
  generate_dynamic_path_mapping :
    (session_dir : String) → (attachments : Attachments) →
      List (String × JaPathMappingRule)
  aggregate_asset_root_manifests :
    (session_dir : String) → (s3_settings : JobAttachmentS3Settings) →
    (queue_id : String) → (job_id : String) → (attachments : Attachments) →
    (step_dependencies : List String) →
    (dynamic_mapping_rules : List (String × JaPathMappingRule)) →
    (storage_profiles_path_mapping_rules : List (String × String)) →
      List (String × BaseAssetManifest)
  check_and_write_local_manifests :
    (merged_manifests_by_root : List (String × BaseAssetManifest)) →
    (manifest_write_dir : String) → List (String × String)

/-- The session fields read and written by the attachment actions. -/
structure SessionState where
  job_details : JobDetails
  job_attachment_details : Option JobAttachmentDetails
  queue_id : String
  job_id : String
  working_directory : String
  os_user : Option SessionUser
  openjd_path_mapping_rules : List OpenjdPathMapping
  manifest_paths_by_root : List (String × String)
deriving Repr, DecidableEq

/-- One `Session.run_task` invocation recorded in an action result. -/
structure RunTaskCall where
  step_script : StepScript
  task_parameter_values : List (String × String)
  os_env_vars : Option (List (String × String))
deriving Repr, DecidableEq

/-! ### Step-script assembly (`set_step_script` of the two attachment
actions, and the trivial assembly of `RunStepTaskAction`) -/

/-- One character of `json.dumps` string escaping. -/
def jsonEscapeChar (c : Char) : String :=
  if c = '\\' then "\\\\"
  else if c = '"' then "\\\""
  else if c = '\n' then "\\n"
  else if c = '\t' then "\\t"
  else if c = '\r' then "\\r"
  else String.singleton c

/-- A `json.dumps` string literal. -/
def jsonStringLit (s : String) : String :=
  "\"" ++ String.join (s.data.map jsonEscapeChar) ++ "\""

/-- `json.dumps` of a string-to-string dictionary (insertion order). -/
def jsonDumps (m : List (String × String)) : String :=
  "\x7b" ++
    String.intercalate ", "
      (m.map (fun p => jsonStringLit p.1 ++ ": " ++ jsonStringLit p.2)) ++
  "\x7d"

/-- `AttachmentDownloadAction.set_step_script`: the step-script running the
embedded download helper with the path-mapping-rules file, the blob-store
root URI, and the local manifest paths. -/
def attachmentDownloadStepScript (sys : SysState) (manifests : List String)
    (s3_settings : JobAttachmentS3Settings) : StepScript :=
  { actions :=
      { onRun :=
          { command := python_path sys
            args :=
              ["\x7b\x7b Task.File.AttachmentDownload \x7d\x7d", "-pm",
               "\x7b\x7b Session.PathMappingRulesFile \x7d\x7d", "-s3",
               s3_settings.to_s3_root_uri, "-m"] ++ manifests } }
    embeddedFiles :=
      [{ name := "AttachmentDownload", filename := "download.py",
         fileType := "TEXT", data := sys.download_script_data }] }

/-- `AttachmentUploadAction.set_step_script`: the step-script running the
embedded upload helper with the path-mapping-rules file, the blob-store
root URI, and the JSON-serialized per-root manifest-path map. -/
def attachmentUploadStepScript (sys : SysState)
    (manifest_paths_by_root : List (String × String))
    (s3_settings : JobAttachmentS3Settings) : StepScript :=
  { actions :=
      { onRun :=
          { command := python_path sys
            args :=
              ["\x7b\x7b Task.File.AttachmentUpload \x7d\x7d", "-pm",
               "\x7b\x7b Session.PathMappingRulesFile \x7d\x7d", "-s3",
               s3_settings.to_s3_root_uri, "-mm",
               jsonDumps manifest_paths_by_root] } }
    embeddedFiles :=
      [{ name := "AttachmentUpload", filename := "upload.py",
         fileType := "TEXT", data := sys.upload_script_data }] }

/-- The inputs of step-script assembly, one case per action kind present in
the source: the download and upload helpers assemble from their arguments,
and `RunStepTaskAction` draws the script directly from its step details. -/
inductive AssemblyInput where
  | download (manifests : List String) (s3_settings : JobAttachmentS3Settings)
  | upload (manifest_paths_by_root : List (String × String))
      (s3_settings : JobAttachmentS3Settings)
  | taskRun (script : StepScript)

/-- Step-script assembly for every action kind, with the session threaded
through so that (non-)mutation of the session is expressible: the source
`set_step_script` methods write only the `_step_script` field of the
action itself and never touch the session. -/
def assembleStepScript (sys : SysState) (inp : AssemblyInput)
    (session : SessionState) : StepScript × SessionState :=
  match inp with
  | .download manifests s3_settings =>
      (attachmentDownloadStepScript sys manifests s3_settings, session)
  | .upload manifest_paths_by_root s3_settings =>
      (attachmentUploadStepScript sys manifest_paths_by_root s3_settings, session)
  | .taskRun script => (script, session)

/-! ### `AttachmentDownloadAction.start` -/

/-- The constructor parameters of `AttachmentDownloadAction`. -/
structure AttachmentDownloadParams where
  id : String
  job_attachment_details : Option JobAttachmentDetails
  step_details : Option StepDetails
deriving Repr, DecidableEq

/-- The observable outcome of `AttachmentDownloadAction.start`. -/
structure DownloadStartResult where
  session : SessionState
  vfs_launched : Bool
  run_task : Option RunTaskCall
deriving Repr, DecidableEq

/-- The permission-settings computation at the top of
`AttachmentDownloadAction._start_vfs`. -/
def fs_permission_settings_of (sys : SysState) (os_user : Option SessionUser) :
    Except AgentError (Option FileSystemPermissionSettings) :=
  match os_user with
  | none => .ok none
  | some u =>
      if sys.os_name = "posix" then
        match u with
        | .posix user group => .ok (some (.posix user group 0o20 0o20))
        | .windows _ => .error (.valueError "The user must be a posix-user.")
      else
        match u with
        | .windows user => .ok (some (.windows user "WRITE" "WRITE"))
        | .posix _ _ => .error (.valueError "The user must be a windows-user.")

/-- Whether computed permission settings are POSIX settings
(`isinstance(fs_permission_settings, PosixFileSystemPermissionSettings)`). -/
def isPosixPerm : Option FileSystemPermissionSettings → Bool
  | some (.posix _ _ _ _) => true
  | _ => false

/-- The guard of `AttachmentDownloadAction._start_vfs`: virtual file-system
mode, not `win32`, permission settings present, `AWS_PROFILE` set in the
process environment, and the permission settings are POSIX settings.
(`os.environ is not None` is always true and is dropped.) -/
def startVfsCheck (sys : SysState) (attachments : Attachments)
    (perm : Option FileSystemPermissionSettings) : Bool :=
  attachments.fileSystem == "VIRTUAL" && sys.platform != "win32" &&
    perm.isSome && (sys.environ.lookup "AWS_PROFILE").isSome && isPosixPerm perm

/-- `AttachmentDownloadAction.start`.  The `AssetSync` collaborator
functions stand for the opaque attachment-transfer library; the result
records the updated session, whether the VFS was launched, and the
`Session.run_task` call if one was made. -/
def attachmentDownloadStart (sys : SysState) (assetSync : AssetSync)
    (act : AttachmentDownloadParams) (session : SessionState) :
    Except AgentError DownloadStartResult := do
  let some ja_settings := session.job_details.job_attachment_settings
    | throw (.runtimeError "Job attachment settings were not contained in JOB_DETAILS entity")
  let session1 : SessionState :=
    match act.job_attachment_details with
    | some d => { session with job_attachment_details := some d }
    | none => session
  let some ja_details := session1.job_attachment_details
    | throw (.runtimeError "Job attachments must be synchronized before downloading Step dependencies.")
  let step_dependencies : List String :=
    match act.step_details with
    | some sd => sd.dependencies
    | none => []
  let some bucket := ja_settings.s3_bucket_name
    | throw (.assertionError "job_attachment_settings.s3_bucket_name is not None")
  let some pfx := ja_settings.root_pfx
    | throw (.assertionError "job_attachment_settings.root_prefix is not None")
  let s3_settings : JobAttachmentS3Settings :=
    { s3BucketName := bucket, rootPfx := pfx }
  let manifest_properties_list : List ManifestProperties :=
    if step_dependencies.isEmpty then
      ja_details.manifests.map (fun mp =>
        { rootPath := mp.root_path
          fileSystemLocationName := mp.file_system_location_name
          rootPathFormat := mp.root_path_format
          inputManifestPath := mp.input_manifest_path
          inputManifestHash := mp.input_manifest_hash
          outputRelativeDirectories := mp.output_relative_directories })
    else []
  let attachments : Attachments :=
    { manifests := manifest_properties_list
      fileSystem := ja_details.job_attachments_file_system }
  let storage_profiles_path_mapping_rules : List (String × String) :=
    session1.job_details.path_mapping_rules.map
      (fun r => (r.source_path, r.destination_path))
  let dynamic_mapping_rules :=
    assetSync.generate_dynamic_path_mapping session1.working_directory attachments
  let merged_manifests_by_root :=
    assetSync.aggregate_asset_root_manifests session1.working_directory s3_settings
      session1.queue_id session1.job_id attachments step_dependencies
      dynamic_mapping_rules storage_profiles_path_mapping_rules
  let perm ← fs_permission_settings_of sys session1.os_user
  if startVfsCheck sys attachments perm then
    pure { session := session1, vfs_launched := true, run_task := none }
  else
    let new_rules : List OpenjdPathMapping :=
      (dynamic_mapping_rules.map (fun p => p.2)).map OpenjdPathMapping.from_dict
    let extended : List OpenjdPathMapping :=
      if session1.openjd_path_mapping_rules.isEmpty then new_rules
      else session1.openjd_path_mapping_rules ++ new_rules
    let sorted_rules := pySortPathMappingRules extended
    let manifest_paths_by_root :=
      assetSync.check_and_write_local_manifests merged_manifests_by_root
        session1.working_directory
    let session2 : SessionState :=
      { session1 with
          openjd_path_mapping_rules := sorted_rules
          manifest_paths_by_root := manifest_paths_by_root }
    let script := attachmentDownloadStepScript sys
      (manifest_paths_by_root.map (fun p => p.2)) s3_settings
    pure { session := session2, vfs_launched := false,
           run_task := some
             { step_script := script, task_parameter_values := [],
               os_env_vars := none } }

/-! ### `AttachmentUploadAction.start` -/

/-- The constructor parameters of `AttachmentUploadAction`. -/
structure AttachmentUploadParams where
  id : String
  step_id : String
  task_id : String
deriving Repr, DecidableEq

/-- The observable outcome of `AttachmentUploadAction.start`. -/
structure UploadStartResult where
  session : SessionState
  run_task : RunTaskCall
deriving Repr, DecidableEq

/-- `AttachmentUploadAction.start`. -/
def attachmentUploadStart (sys : SysState) (act : AttachmentUploadParams)
    (session : SessionState) : Except AgentError UploadStartResult := do
  let some ja_settings := session.job_details.job_attachment_settings
    | throw (.runtimeError "Job attachment settings were not contained in JOB_DETAILS entity")
  let some bucket := ja_settings.s3_bucket_name
    | throw (.assertionError "job_attachment_settings.s3_bucket_name is not None")
  let some pfx := ja_settings.root_pfx
    | throw (.assertionError "job_attachment_settings.root_prefix is not None")
  let s3_settings : JobAttachmentS3Settings :=
    { s3BucketName := bucket, rootPfx := pfx }
  let manifest_paths_by_root := session.manifest_paths_by_root
  let script := attachmentUploadStepScript sys manifest_paths_by_root s3_settings
  pure { session := session
         run_task :=
           { step_script := script
             task_parameter_values := []
             os_env_vars := some
               [("DEADLINE_SESSIONACTION_ID", act.id),
                ("DEADLINE_STEP_ID", act.step_id),
                ("DEADLINE_TASK_ID", act.task_id)] } }

/-! ### Worker settings (`startup/settings.py`) and the daemon CLI surface
(`startup/cli_args.py`) -/

/-- The declared worker capabilities (`startup/capabilities.py` model as
referenced by `WorkerSettings`): amounts and attributes maps. -/
structure Capabilities where
  amounts : List (String × Nat)
  attributes : List (String × List String)
deriving Repr, DecidableEq

/-- The fields declared on `WorkerSettings`, exactly the keys of
`WorkerSettings.Config.fields`. -/
inductive SettingName where
  | farm_id
  | fleet_id
  | cleanup_session_user_processes
  | profile
  | verbose
  | no_shutdown
  | impersonation
  | posix_job_user
  | allow_instance_profile
  | capabilities
  | worker_logs_dir
  | worker_persistence_dir
  | local_session_logs
deriving Repr, DecidableEq

/-- The Python attribute name of a `WorkerSettings` field. -/
def SettingName.fieldName : SettingName → String
  | .farm_id => "farm_id"
  | .fleet_id => "fleet_id"
  | .cleanup_session_user_processes => "cleanup_session_user_processes"
  | .profile => "profile"
  | .verbose => "verbose"
  | .no_shutdown => "no_shutdown"
  | .impersonation => "impersonation"
  | .posix_job_user => "posix_job_user"
  | .allow_instance_profile => "allow_instance_profile"
  | .capabilities => "capabilities"
  | .worker_logs_dir => "worker_logs_dir"
  | .worker_persistence_dir => "worker_persistence_dir"
  | .local_session_logs => "local_session_logs"

/-- The environment-variable name bound to each field in
`WorkerSettings.Config.fields`. -/
def SettingName.envVarName : SettingName → String
  | .farm_id => "DEADLINE_WORKER_FARM_ID"
  | .fleet_id => "DEADLINE_WORKER_FLEET_ID"
  | .cleanup_session_user_processes => "DEADLINE_WORKER_CLEANUP_SESSION_USER_PROCESSES"
  | .profile => "DEADLINE_WORKER_PROFILE"
  | .verbose => "DEADLINE_WORKER_VERBOSE"
  | .no_shutdown => "DEADLINE_WORKER_NO_SHUTDOWN"
  | .impersonation => "DEADLINE_WORKER_IMPERSONATION"
  | .posix_job_user => "DEADLINE_WORKER_POSIX_JOB_USER"
  | .allow_instance_profile => "DEADLINE_WORKER_ALLOW_INSTANCE_PROFILE"
  | .capabilities => "DEADLINE_WORKER_CAPABILITIES"
  | .worker_logs_dir => "DEADLINE_WORKER_LOGS_DIR"
  | .worker_persistence_dir => "DEADLINE_WORKER_PERSISTENCE_DIR"
  | .local_session_logs => "DEADLINE_WORKER_LOCAL_SESSION_LOGS"

/-- All `WorkerSettings` fields. -/
def allSettingNames : List SettingName :=
  [.farm_id, .fleet_id, .cleanup_session_user_processes, .profile, .verbose,
   .no_shutdown, .impersonation, .posix_job_user, .allow_instance_profile,
   .capabilities, .worker_logs_dir, .worker_persistence_dir,
   .local_session_logs]

/-- The attribute names of the fields declared on `WorkerSettings`. -/
def worker_settings_field_names : List String :=
  allSettingNames.map SettingName.fieldName

/-- A raw value offered for one setting by one source.  Paths and the
`user:group` string are strings; flag settings are booleans. -/
inductive SettingValue where
  | str (s : String)
  | bool (b : Bool)
  | caps (c : Capabilities)
deriving Repr, DecidableEq

/-- A settings source: a partial assignment of raw values to setting
names, as produced by the init-arguments source, the environment-variable
source, or the config-file source. -/
def SettingsSource : Type := SettingName → Option SettingValue

/-- `ConfigFile.load` failure. -/
inductive ConfigLoadError where
  | fileNotFound
deriving Repr, DecidableEq

/-- `WorkerSettings.Config.customise_sources`: init arguments first, then
environment variables, then the config file; when `ConfigFile.load` raises
`FileNotFoundError` the config-file source is omitted.  Earlier sources in
the returned list take priority (the documented pydantic source order). -/
def customise_sources (init_settings env_settings : SettingsSource)
    (config : Except ConfigLoadError SettingsSource) : List SettingsSource :=
  match config with
  | .error _ => [init_settings, env_settings]
  | .ok config_file => [init_settings, env_settings, config_file]

/-- The pydantic value construction over the prioritized sources: for each
field, the first source offering a value wins. -/
def buildValues (sources : List SettingsSource) : SettingsSource :=
  fun name => sources.foldr (fun src acc => (src name).orElse (fun _ => acc)) none

/-- The `^farm-[a-z0-9]\x7b32\x7d$`-style identifier patterns of
`WorkerSettings`: the entity name, a hyphen, then exactly 32 characters
drawn from lowercase letters and digits. -/
def entityIdPattern (entity : String) (s : String) : Bool :=
  strStartsWith (entity ++ "-") s &&
    (let rest := s.data.drop (entity.data.length + 1)
     rest.length = 32 && rest.all (fun c => c.isLower || c.isDigit))

/-- One side of the `posix_job_user` pattern
(`[a-zA-Z0-9_.][^:]\x7b0,31\x7d`): first character alphanumeric,
underscore, or dot; at most 31 further non-colon characters. -/
def userPartPattern (p : String) : Bool :=
  match p.data with
  | [] => false
  | c :: rest => (c.isAlphanum || c = '_' || c = '.') && rest.length ≤ 31

/-- The `posix_job_user` field pattern: `user:group` with exactly one
colon. -/
def posix_job_user_pattern (s : String) : Bool :=
  match strSplitOn ':' s with
  | [u, g] => userPartPattern u && userPartPattern g
  | _ => false

/-- The validated `WorkerSettings` model. -/
structure WorkerSettings where
  farm_id : String
  fleet_id : String
  cleanup_session_user_processes : Bool
  profile : Option String
  verbose : Bool
  no_shutdown : Bool
  impersonation : Bool
  posix_job_user : Option String
  allow_instance_profile : Bool
  capabilities : Capabilities
  worker_logs_dir : String
  worker_persistence_dir : String
  local_session_logs : Bool
deriving Repr, DecidableEq

/-- A pydantic validation failure for one field. -/
inductive ValidationError where
  | missing (field : String)
  | invalid (field : String)
deriving Repr, DecidableEq

/-- Field-by-field validation and defaulting of `WorkerSettings`:
`farm_id` and `fleet_id` are required and pattern-checked; every other
field has a declared default and is validated only when provided. -/
def validateWorkerSettings (v : SettingsSource) :
    Except ValidationError WorkerSettings := do
  let farm ← match v .farm_id with
    | none => throw (.missing "farm_id")
    | some (.str s) =>
        if entityIdPattern "farm" s then pure s else throw (.invalid "farm_id")
    | some _ => throw (.invalid "farm_id")
  let fleet ← match v .fleet_id with
    | none => throw (.missing "fleet_id")
    | some (.str s) =>
        if entityIdPattern "fleet" s then pure s else throw (.invalid "fleet_id")
    | some _ => throw (.invalid "fleet_id")
  let cleanup ← match v .cleanup_session_user_processes with
    | none => pure true
    | some (.bool b) => pure b
    | some _ => throw (.invalid "cleanup_session_user_processes")
  let profileVal ← match v .profile with
    | none => pure none
    | some (.str s) =>
        if 1 ≤ s.length && s.length ≤ 64 then pure (some s)
        else throw (.invalid "profile")
    | some _ => throw (.invalid "profile")
  let verboseVal ← match v .verbose with
    | none => pure false
    | some (.bool b) => pure b
    | some _ => throw (.invalid "verbose")
  let noShutdown ← match v .no_shutdown with
    | none => pure false
    | some (.bool b) => pure b
    | some _ => throw (.invalid "no_shutdown")
  let impersonationVal ← match v .impersonation with
    | none => pure true
    | some (.bool b) => pure b
    | some _ => throw (.invalid "impersonation")
  let posixJobUser ← match v .posix_job_user with
    | none => pure none
    | some (.str s) =>
        if posix_job_user_pattern s then pure (some s)
        else throw (.invalid "posix_job_user")
    | some _ => throw (.invalid "posix_job_user")
  let allowInstanceProfile ← match v .allow_instance_profile with
    | none => pure false
    | some (.bool b) => pure b
    | some _ => throw (.invalid "allow_instance_profile")
  let capabilitiesVal ← match v .capabilities with
    | none => pure { amounts := [], attributes := [] }
    | some (.caps c) => pure c
    | some _ => throw (.invalid "capabilities")
  let logsDir ← match v .worker_logs_dir with
    | none => pure "/var/log/amazon/deadline"
    | some (.str s) => pure s
    | some _ => throw (.invalid "worker_logs_dir")
  let persistenceDir ← match v .worker_persistence_dir with
    | none => pure "/var/lib/deadline"
    | some (.str s) => pure s
    | some _ => throw (.invalid "worker_persistence_dir")
  let localSessionLogs ← match v .local_session_logs with
    | none => pure true
    | some (.bool b) => pure b
    | some _ => throw (.invalid "local_session_logs")
  pure
    { farm_id := farm
      fleet_id := fleet
      cleanup_session_user_processes := cleanup
      profile := profileVal
      verbose := verboseVal
      no_shutdown := noShutdown
      impersonation := impersonationVal
      posix_job_user := posixJobUser
      allow_instance_profile := allowInstanceProfile
      capabilities := capabilitiesVal
      worker_logs_dir := logsDir
      worker_persistence_dir := persistenceDir
      local_session_logs := localSessionLogs }

/-- Construction of `WorkerSettings` from the three sources: the sources
chosen by `customise_sources`, merged with first-source priority, then
validated. -/
def mkWorkerSettings (init_settings env_settings : SettingsSource)
    (config : Except ConfigLoadError SettingsSource) :
    Except ValidationError WorkerSettings :=
  validateWorkerSettings
    (buildValues (customise_sources init_settings env_settings config))

/-- The option strings registered on the parser returned by
`startup/cli_args.py`. -/
def argument_parser_option_strings : List String :=
  ["--farm-id", "--fleet-id", "--no-cleanup-session-user-processes",
   "--profile", "--no-shutdown", "--no-impersonation", "--posix-job-user",
   "--logs-dir", "--no-local-session-logs", "--persistence-dir",
   "--no-allow-instance-profile", "--allow-instance-profile",
   "--verbose", "-v"]

/-- The attributes of `ParsedCommandLineArguments` in
`startup/cli_args.py`. -/
def parsed_command_line_argument_names : List String :=
  ["farm_id", "fleet_id", "cleanup_session_user_processes", "profile",
   "verbose", "no_shutdown", "impersonation", "posix_job_user",
   "allow_instance_profile", "logs_dir", "local_session_logs",
   "persistence_dir", "no_allow_instance_profile"]

/-! ### Concrete fixtures used by witnesses and counterexamples -/

/-- A concrete POSIX machine state without `AWS_PROFILE`. -/
def cSys : SysState :=
  { os_name := "posix", platform := "linux",
    environ := [("PATH", "/usr/bin")],
    executable_dir := "/opt/agent/bin", executable_name := "python3",
    download_script_data := "download-helper", upload_script_data := "upload-helper" }

/-- The same machine state with `AWS_PROFILE` set. -/
def cSysAws : SysState :=
  { cSys with environ := [("PATH", "/usr/bin"), ("AWS_PROFILE", "default")] }

/-- A concrete dynamic path-mapping rule produced by the collaborator. -/
def cJaRule : JaPathMappingRule :=
  { source_path_format := "POSIX", source_path := "/assets",
    destination_path := "/sessions/session-1/assetroot-1" }

/-- A concrete manifest-properties record. -/
def cManifestIn : ManifestPropertiesIn :=
  { root_path := "/assets", file_system_location_name := none,
    root_path_format := "posix", input_manifest_path := some "manifests/input",
    input_manifest_hash := some "hash1",
    output_relative_directories := some ["out"] }

/-- Concrete job-attachment details in COPIED file-system mode. -/
def cJaDetails : JobAttachmentDetails :=
  { manifests := [cManifestIn], job_attachments_file_system := "COPIED" }

/-- Concrete job-attachment details in VIRTUAL file-system mode. -/
def cJaDetailsVirtual : JobAttachmentDetails :=
  { manifests := [cManifestIn], job_attachments_file_system := "VIRTUAL" }

/-- Concrete job details with attachment settings and no storage-profile
rules. -/
def cJobDetails : JobDetails :=
  { job_attachment_settings :=
      some { s3_bucket_name := some "mybucket", root_pfx := some "DeadlineCloud" }
    path_mapping_rules := [] }

/-- A pre-existing openjd rule with a three-part source path. -/
def cPre1 : OpenjdPathMapping :=
  { source_path_format := "POSIX", source_path := ["/", "a", "b"],
    destination_path := ["/", "x"] }

/-- A pre-existing openjd rule with a one-part source path. -/
def cPre2 : OpenjdPathMapping :=
  { source_path_format := "POSIX", source_path := ["/"],
    destination_path := ["/", "y"] }

/-- A concrete session in COPIED mode whose openjd rule list starts
unsorted. -/
def cSession : SessionState :=
  { job_details := cJobDetails, job_attachment_details := some cJaDetails,
    queue_id := "queue-1", job_id := "job-1",
    working_directory := "/sessions/session-1",
    os_user := some (.posix "jobuser" "jobgroup"),
    openjd_path_mapping_rules := [cPre2, cPre1],
    manifest_paths_by_root := [] }

/-- The same session in VIRTUAL file-system mode. -/
def cSessionVirtual : SessionState :=
  { cSession with job_attachment_details := some cJaDetailsVirtual }

/-- A concrete attachment-transfer collaborator. -/
def cAssetSync : AssetSync :=
  { generate_dynamic_path_mapping := fun _ _ => [("/assets", cJaRule)]
    aggregate_asset_root_manifests := fun _ _ _ _ _ _ _ _ =>
      [("/assets", { contents := "manifest-1" })]
    check_and_write_local_manifests := fun merged dir =>
      merged.map (fun p => (p.1, dir ++ "/manifest-1.json")) }

/-- Concrete download-action parameters (job sync flavor, COPIED mode). -/
def cDownloadParams : AttachmentDownloadParams :=
  { id := "sessionaction-dl", job_attachment_details := some cJaDetails,
    step_details := none }

/-- Concrete download-action parameters in VIRTUAL mode. -/
def cDownloadParamsVirtual : AttachmentDownloadParams :=
  { id := "sessionaction-dl", job_attachment_details := some cJaDetailsVirtual,
    step_details := none }

/-- The result of `attachmentDownloadStart cSys cAssetSync cDownloadParams
cSession`, spelled out. -/
def cDownloadResult : DownloadStartResult :=
  { session :=
      { cSession with
          openjd_path_mapping_rules :=
            [cPre1,
             { source_path_format := "POSIX", source_path := ["/", "assets"],
               destination_path := ["/", "sessions", "session-1", "assetroot-1"] },
             cPre2]
          manifest_paths_by_root :=
            [("/assets", "/sessions/session-1/manifest-1.json")] }
    vfs_launched := false
    run_task := some
      { step_script :=
          { actions :=
              { onRun :=
                  { command := "/opt/agent/bin/python3"
                    args :=
                      ["\x7b\x7b Task.File.AttachmentDownload \x7d\x7d", "-pm",
                       "\x7b\x7b Session.PathMappingRulesFile \x7d\x7d", "-s3",
                       "s3://mybucket/DeadlineCloud", "-m",
                       "/sessions/session-1/manifest-1.json"] } }
            embeddedFiles :=
              [{ name := "AttachmentDownload", filename := "download.py",
                 fileType := "TEXT", data := "download-helper" }] }
        task_parameter_values := []
        os_env_vars := none } }

/-! ### Theorems -/

/-- The Python sort by key `-len(rule.source_path.parts)` yields a list
that is pairwise non-increasing in source-path part count. -/
theorem pySortPathMappingRules_pairwise (l : List OpenjdPathMapping) :
    (pySortPathMappingRules l).Pairwise
      (fun a b => b.source_path.length ≤ a.source_path.length) := by
  haveI : IsTotal OpenjdPathMapping
      (fun a b => b.source_path.length ≤ a.source_path.length) :=
    ⟨fun a b => Nat.le_total b.source_path.length a.source_path.length⟩
  haveI : IsTrans OpenjdPathMapping
      (fun a b => b.source_path.length ≤ a.source_path.length) :=
    ⟨fun _ _ _ hab hbc => Nat.le_trans hbc hab⟩
  exact List.sorted_insertionSort _ l

/-- C1: when `AttachmentDownloadAction.start` returns through the non-VFS
branch, the path-mapping rule list of the openjd session (pre-existing rules
plus the appended dynamic mapping rules) is sorted by non-increasing count
of source-path components: every adjacent pair of rules satisfies
`len(r_i.source_path.parts) >= len(r_(i+1)).source_path.parts)`. -/
theorem attachment_download_sorted_path_mapping_rules
    (sys : SysState) (assetSync : AssetSync) (act : AttachmentDownloadParams)
    (session : SessionState) (r : DownloadStartResult)
    (h : attachmentDownloadStart sys assetSync act session = Except.ok r)
    (hvfs : r.vfs_launched = false) :
    ∀ i : Nat, ∀ hi : i + 1 < r.session.openjd_path_mapping_rules.length,
      (r.session.openjd_path_mapping_rules.get ⟨i + 1, hi⟩).source_path.length ≤
        (r.session.openjd_path_mapping_rules.get
          ⟨i, Nat.lt_of_succ_lt hi⟩).source_path.length := by
  suffices hkey : ∀ rules : List OpenjdPathMapping,
      (∃ l, rules = pySortPathMappingRules l) →
      ∀ i : Nat, ∀ hi : i + 1 < rules.length,
        (rules.get ⟨i + 1, hi⟩).source_path.length ≤
          (rules.get ⟨i, Nat.lt_of_succ_lt hi⟩).source_path.length by
    apply hkey
    unfold attachmentDownloadStart at h
    simp only [bind, Except.bind] at h
    repeat' split at h
    all_goals try (cases h)
    all_goals first
      | (exact ⟨_, rfl⟩)
      | (simp at hvfs)
  intro rules hex
  obtain ⟨l, rfl⟩ := hex
  have hp := pySortPathMappingRules_pairwise l
  rw [List.pairwise_iff_get] at hp
  intro i hi
  exact hp ⟨i, Nat.lt_of_succ_lt hi⟩ ⟨i + 1, hi⟩
    (Fin.mk_lt_mk.mpr (Nat.lt_succ_self i))

/-- Modelled from the spec, for comparison with the source guard: the
VFS-delegation condition exactly as the specification sentence states it —
file-system mode virtual AND the host platform supports it (not `win32`)
AND an OS user with sufficient permissions is available — with no further
requirement. -/
def vfsSpecCondition (sys : SysState) (fileSystem : String)
    (perm : Option FileSystemPermissionSettings) : Bool :=
  fileSystem == "VIRTUAL" && sys.platform != "win32" && perm.isSome

/-- The source guard of the VFS branch of `AttachmentDownloadAction.start`,
restated over the start inputs: the effective job-attachment details
(those of the action, else those of the session), then the permission
settings of `_start_vfs` and its full condition, which requires `AWS_PROFILE` in the
process environment and POSIX permission settings. -/
def downloadVfsGuard (sys : SysState) (act : AttachmentDownloadParams)
    (session : SessionState) : Bool :=
  match (act.job_attachment_details).orElse
      (fun _ => session.job_attachment_details) with
  | none => false
  | some d =>
    match fs_permission_settings_of sys session.os_user with
    | .error _ => false
    | .ok perm =>
        d.job_attachments_file_system == "VIRTUAL" && sys.platform != "win32" &&
          perm.isSome && (sys.environ.lookup "AWS_PROFILE").isSome &&
          isPosixPerm perm

/-- C2 counterexample: with virtual mode, a POSIX platform, and a POSIX OS
user with permission settings — the spec condition holds — but without
`AWS_PROFILE` in the environment, start does NOT delegate to the VFS and
instead produces a step-script run. -/
theorem vfs_delegation_spec_counterexample :
    vfsSpecCondition cSys cJaDetailsVirtual.job_attachments_file_system
        (some (FileSystemPermissionSettings.posix "jobuser" "jobgroup" 16 16)) =
      true ∧
    fs_permission_settings_of cSys cSessionVirtual.os_user =
      Except.ok (some (FileSystemPermissionSettings.posix "jobuser" "jobgroup" 16 16)) ∧
    (attachmentDownloadStart cSys cAssetSync cDownloadParamsVirtual
          cSessionVirtual).map (fun r => (r.vfs_launched, r.run_task.isSome)) =
      Except.ok (false, true) := by
  refine ⟨by decide, by decide, by decide⟩

/-- C2 amended: whenever `AttachmentDownloadAction.start` returns
successfully, it delegated to the VFS exactly when the source guard holds
(virtual mode, not `win32`, an OS user yielding POSIX permission settings,
and `AWS_PROFILE` present in the environment); on the VFS branch no
`Session.run_task` call is made, and otherwise the step-script path runs a
task. -/
theorem vfs_delegation_guard
    (sys : SysState) (assetSync : AssetSync) (act : AttachmentDownloadParams)
    (session : SessionState) (r : DownloadStartResult)
    (h : attachmentDownloadStart sys assetSync act session = Except.ok r) :
    r.vfs_launched = downloadVfsGuard sys act session ∧
    (r.vfs_launched = true → r.run_task = none) ∧
    (r.vfs_launched = false → r.run_task.isSome = true) := by
  unfold attachmentDownloadStart at h
  simp only [bind, Except.bind] at h
  cases hjas : session.job_details.job_attachment_settings with
  | none => rw [hjas] at h; cases h
  | some ja_settings =>
  rw [hjas] at h
  cases hact : act.job_attachment_details with
  | some dAct =>
    rw [hact] at h
    simp only [] at h
    cases hb : ja_settings.s3_bucket_name with
    | none => rw [hb] at h; cases h
    | some bucket =>
    rw [hb] at h
    cases hpfx : ja_settings.root_pfx with
    | none => rw [hpfx] at h; cases h
    | some pfx =>
    rw [hpfx] at h
    cases hperm : fs_permission_settings_of sys session.os_user with
    | error e => rw [hperm] at h; cases h
    | ok perm =>
    rw [hperm] at h
    simp only [] at h
    by_cases hcheck : startVfsCheck sys
        { manifests :=
            if (match act.step_details with
                | some sd => sd.dependencies
                | none => []).isEmpty = true then
              List.map
                (fun mp =>
                  { rootPath := mp.root_path,
                    fileSystemLocationName := mp.file_system_location_name,
                    rootPathFormat := mp.root_path_format,
                    inputManifestPath := mp.input_manifest_path,
                    inputManifestHash := mp.input_manifest_hash,
                    outputRelativeDirectories := mp.output_relative_directories })
                dAct.manifests
            else [],
          fileSystem := dAct.job_attachments_file_system } perm = true
    · rw [if_pos hcheck] at h
      cases h
      refine ⟨?_, ?_, ?_⟩
      · simp only [downloadVfsGuard, hact, hperm, Option.orElse]
        exact hcheck.symm
      · intro hv; rfl
      · intro hv; simp at hv
    · rw [if_neg hcheck] at h
      cases h
      refine ⟨?_, ?_, ?_⟩
      · simp only [downloadVfsGuard, hact, hperm, Option.orElse]
        simp only [Bool.not_eq_true] at hcheck
        exact hcheck.symm
      · intro hv; simp at hv
      · intro hv; rfl
  | none =>
    rw [hact] at h
    simp only [] at h
    cases hdet : session.job_attachment_details with
    | none => rw [hdet] at h; cases h
    | some dSes =>
    rw [hdet] at h
    simp only [] at h
    cases hb : ja_settings.s3_bucket_name with
    | none => rw [hb] at h; cases h
    | some bucket =>
    rw [hb] at h
    cases hpfx : ja_settings.root_pfx with
    | none => rw [hpfx] at h; cases h
    | some pfx =>
    rw [hpfx] at h
    cases hperm : fs_permission_settings_of sys session.os_user with
    | error e => rw [hperm] at h; cases h
    | ok perm =>
    rw [hperm] at h
    simp only [] at h
    by_cases hcheck : startVfsCheck sys
        { manifests :=
            if (match act.step_details with
                | some sd => sd.dependencies
                | none => []).isEmpty = true then
              List.map
                (fun mp =>
                  { rootPath := mp.root_path,
                    fileSystemLocationName := mp.file_system_location_name,
                    rootPathFormat := mp.root_path_format,
                    inputManifestPath := mp.input_manifest_path,
                    inputManifestHash := mp.input_manifest_hash,
                    outputRelativeDirectories := mp.output_relative_directories })
                dSes.manifests
            else [],
          fileSystem := dSes.job_attachments_file_system } perm = true
    · rw [if_pos hcheck] at h
      cases h
      refine ⟨?_, ?_, ?_⟩
      · simp only [downloadVfsGuard, hact, hdet, hperm, Option.orElse]
        exact hcheck.symm
      · intro hv; rfl
      · intro hv; simp at hv
    · rw [if_neg hcheck] at h
      cases h
      refine ⟨?_, ?_, ?_⟩
      · simp only [downloadVfsGuard, hact, hdet, hperm, Option.orElse]
        simp only [Bool.not_eq_true] at hcheck
        exact hcheck.symm
      · intro hv; simp at hv
      · intro hv; rfl

/-- The result of the concrete VFS delegation below. -/
def cVfsResult : DownloadStartResult :=
  { session := cSessionVirtual, vfs_launched := true, run_task := none }

/-- Witness for C2 amended: a concrete VFS delegation (virtual mode,
POSIX user, `AWS_PROFILE` set) and the `run_task`-absence it implies. -/
theorem vfs_delegation_guard_witness :
    downloadVfsGuard cSysAws cDownloadParamsVirtual cSessionVirtual = true ∧
    (cVfsResult.vfs_launched =
        downloadVfsGuard cSysAws cDownloadParamsVirtual cSessionVirtual ∧
      (cVfsResult.vfs_launched = true → cVfsResult.run_task = none) ∧
      (cVfsResult.vfs_launched = false → cVfsResult.run_task.isSome = true)) :=
  ⟨by decide,
   vfs_delegation_guard cSysAws cAssetSync cDownloadParamsVirtual cSessionVirtual
     cVfsResult (by decide)⟩

/-- Index bound for the witness below. -/
theorem cDownloadResult_rules_len :
    0 + 1 < cDownloadResult.session.openjd_path_mapping_rules.length := by
  decide

/-- Witness for C1 at a concrete non-VFS download. -/
theorem attachment_download_sorted_path_mapping_rules_witness :
    attachmentDownloadStart cSys cAssetSync cDownloadParams cSession =
        Except.ok cDownloadResult ∧
    cDownloadResult.vfs_launched = false ∧
    (cDownloadResult.session.openjd_path_mapping_rules.get
        ⟨0 + 1, cDownloadResult_rules_len⟩).source_path.length ≤
      (cDownloadResult.session.openjd_path_mapping_rules.get
        ⟨0, Nat.lt_of_succ_lt cDownloadResult_rules_len⟩).source_path.length :=
  ⟨by decide, by decide,
   attachment_download_sorted_path_mapping_rules cSys cAssetSync cDownloadParams
     cSession cDownloadResult (by decide) (by decide) 0 cDownloadResult_rules_len⟩

/-- A step-dependency-flavor session with no previously synchronized
job-attachment details. -/
def cSessionNoSync : SessionState :=
  { cSession with job_attachment_details := none }

/-- A session whose job details carry no job-attachment settings. -/
def cSessionNoSettings : SessionState :=
  { cSession with
      job_details := { job_attachment_settings := none, path_mapping_rules := [] } }

/-- Concrete step details with one dependency. -/
def cStepDetails : StepDetails :=
  { step_id := "step-1", dependencies := ["step-0"] }

/-- Concrete step-dependency download parameters. -/
def cDepParams : AttachmentDownloadParams :=
  { id := "sessionaction-dep", job_attachment_details := none,
    step_details := some cStepDetails }

/-- C9: in step-dependency flavor (step details present, no
job-attachment details on the action), `start` raises `RuntimeError` when
the session has no previously synchronized job-attachment details, and
likewise when the job details carry no job-attachment settings.  Both
errors are independent of the attachment-transfer collaborator (the
`assetSync` quantifier), so no manifest aggregation, VFS launch, or
step-script production has happened. -/
theorem step_dependency_download_requires_synced_attachments
    (sys : SysState) (assetSync : AssetSync) (actId : String)
    (sd : StepDetails) (session : SessionState) :
    (session.job_details.job_attachment_settings = none →
      attachmentDownloadStart sys assetSync
          { id := actId, job_attachment_details := none, step_details := some sd }
          session =
        Except.error (AgentError.runtimeError
          "Job attachment settings were not contained in JOB_DETAILS entity")) ∧
    (∀ ja_settings,
      session.job_details.job_attachment_settings = some ja_settings →
      session.job_attachment_details = none →
      attachmentDownloadStart sys assetSync
          { id := actId, job_attachment_details := none, step_details := some sd }
          session =
        Except.error (AgentError.runtimeError
          "Job attachments must be synchronized before downloading Step dependencies.")) := by
  constructor
  · intro hjas
    unfold attachmentDownloadStart
    rw [hjas]
    rfl
  · intro ja_settings hjas hdet
    unfold attachmentDownloadStart
    rw [hjas]
    simp only []
    rw [hdet]
    rfl

/-- Witness for C9: both RuntimeErrors at concrete sessions. -/
theorem step_dependency_download_requires_synced_attachments_witness :
    cSessionNoSettings.job_details.job_attachment_settings = none ∧
    attachmentDownloadStart cSys cAssetSync cDepParams cSessionNoSettings =
      Except.error (AgentError.runtimeError
        "Job attachment settings were not contained in JOB_DETAILS entity") ∧
    cSessionNoSync.job_attachment_details = none ∧
    attachmentDownloadStart cSys cAssetSync cDepParams cSessionNoSync =
      Except.error (AgentError.runtimeError
        "Job attachments must be synchronized before downloading Step dependencies.") :=
  ⟨rfl,
   (step_dependency_download_requires_synced_attachments cSys cAssetSync
      "sessionaction-dep" cStepDetails cSessionNoSettings).1 rfl,
   rfl,
   (step_dependency_download_requires_synced_attachments cSys cAssetSync
      "sessionaction-dep" cStepDetails cSessionNoSync).2
     { s3_bucket_name := some "mybucket", root_pfx := some "DeadlineCloud" }
     rfl rfl⟩

/-- The merged per-root manifests computed on the reachable path of
`AttachmentDownloadAction.start`, restated over the start inputs (the
unreachable missing-settings branches return `[]`); used to name the map
of local manifests the download writes and stores. -/
def downloadMergedManifests (assetSync : AssetSync)
    (act : AttachmentDownloadParams) (session : SessionState) :
    List (String × BaseAssetManifest) :=
  match session.job_details.job_attachment_settings with
  | none => []
  | some ja_settings =>
    let session1 : SessionState :=
      match act.job_attachment_details with
      | some d => { session with job_attachment_details := some d }
      | none => session
    match session1.job_attachment_details with
    | none => []
    | some ja_details =>
      match ja_settings.s3_bucket_name, ja_settings.root_pfx with
      | some bucket, some pfx =>
        let step_dependencies : List String :=
          match act.step_details with
          | some sd => sd.dependencies
          | none => []
        let s3_settings : JobAttachmentS3Settings :=
          { s3BucketName := bucket, rootPfx := pfx }
        let manifest_properties_list : List ManifestProperties :=
          if step_dependencies.isEmpty then
            ja_details.manifests.map (fun mp =>
              { rootPath := mp.root_path
                fileSystemLocationName := mp.file_system_location_name
                rootPathFormat := mp.root_path_format
                inputManifestPath := mp.input_manifest_path
                inputManifestHash := mp.input_manifest_hash
                outputRelativeDirectories := mp.output_relative_directories })
          else []
        let attachments : Attachments :=
          { manifests := manifest_properties_list
            fileSystem := ja_details.job_attachments_file_system }
        let storage_profiles_path_mapping_rules : List (String × String) :=
          session1.job_details.path_mapping_rules.map
            (fun r => (r.source_path, r.destination_path))
        let dynamic_mapping_rules :=
          assetSync.generate_dynamic_path_mapping session1.working_directory
            attachments
        assetSync.aggregate_asset_root_manifests session1.working_directory
          s3_settings session1.queue_id session1.job_id attachments
          step_dependencies dynamic_mapping_rules
          storage_profiles_path_mapping_rules
      | _, _ => []

/-- On the non-VFS path, the map stored in `session.manifest_paths_by_root`
by `AttachmentDownloadAction.start` is exactly the write, by the collaborator, of
the aggregated per-root manifests under the session working directory. -/
theorem downloadStart_nonvfs_manifest_paths
    (sys : SysState) (assetSync : AssetSync) (act : AttachmentDownloadParams)
    (session : SessionState) (r : DownloadStartResult)
    (h : attachmentDownloadStart sys assetSync act session = Except.ok r)
    (hvfs : r.vfs_launched = false) :
    r.session.manifest_paths_by_root =
      assetSync.check_and_write_local_manifests
        (downloadMergedManifests assetSync act session)
        session.working_directory := by
  unfold attachmentDownloadStart at h
  simp only [bind, Except.bind] at h
  cases hjas : session.job_details.job_attachment_settings with
  | none => rw [hjas] at h; cases h
  | some ja_settings =>
  rw [hjas] at h
  cases hact : act.job_attachment_details with
  | some dAct =>
    rw [hact] at h
    simp only [] at h
    cases hb : ja_settings.s3_bucket_name with
    | none => rw [hb] at h; cases h
    | some bucket =>
    rw [hb] at h
    cases hpfx : ja_settings.root_pfx with
    | none => rw [hpfx] at h; cases h
    | some pfx =>
    rw [hpfx] at h
    cases hperm : fs_permission_settings_of sys session.os_user with
    | error e => rw [hperm] at h; cases h
    | ok perm =>
    rw [hperm] at h
    simp only [] at h
    by_cases hcheck : startVfsCheck sys
        { manifests :=
            if (match act.step_details with
                | some sd => sd.dependencies
                | none => []).isEmpty = true then
              List.map
                (fun mp =>
                  { rootPath := mp.root_path,
                    fileSystemLocationName := mp.file_system_location_name,
                    rootPathFormat := mp.root_path_format,
                    inputManifestPath := mp.input_manifest_path,
                    inputManifestHash := mp.input_manifest_hash,
                    outputRelativeDirectories := mp.output_relative_directories })
                dAct.manifests
            else [],
          fileSystem := dAct.job_attachments_file_system } perm = true
    · rw [if_pos hcheck] at h
      cases h
      simp at hvfs
    · rw [if_neg hcheck] at h
      cases h
      simp only [downloadMergedManifests, hjas, hact, hb, hpfx]
  | none =>
    rw [hact] at h
    simp only [] at h
    cases hdet : session.job_attachment_details with
    | none => rw [hdet] at h; cases h
    | some dSes =>
    rw [hdet] at h
    simp only [] at h
    cases hb : ja_settings.s3_bucket_name with
    | none => rw [hb] at h; cases h
    | some bucket =>
    rw [hb] at h
    cases hpfx : ja_settings.root_pfx with
    | none => rw [hpfx] at h; cases h
    | some pfx =>
    rw [hpfx] at h
    cases hperm : fs_permission_settings_of sys session.os_user with
    | error e => rw [hperm] at h; cases h
    | ok perm =>
    rw [hperm] at h
    simp only [] at h
    by_cases hcheck : startVfsCheck sys
        { manifests :=
            if (match act.step_details with
                | some sd => sd.dependencies
                | none => []).isEmpty = true then
              List.map
                (fun mp =>
                  { rootPath := mp.root_path,
                    fileSystemLocationName := mp.file_system_location_name,
                    rootPathFormat := mp.root_path_format,
                    inputManifestPath := mp.input_manifest_path,
                    inputManifestHash := mp.input_manifest_hash,
                    outputRelativeDirectories := mp.output_relative_directories })
                dSes.manifests
            else [],
          fileSystem := dSes.job_attachments_file_system } perm = true
    · rw [if_pos hcheck] at h
      cases h
      simp at hvfs
    · rw [if_neg hcheck] at h
      cases h
      simp only [downloadMergedManifests, hjas, hact, hdet, hb, hpfx]

/-- C4: when an `AttachmentDownloadAction.start` completes via the
step-script path and an `AttachmentUploadAction.start` then runs on the
resulting session, the per-root manifest-path map the upload serializes
("-mm" argument) is exactly `session.manifest_paths_by_root` as written
and stored by that download, and the upload leaves it unchanged. -/
theorem upload_serializes_download_manifest_paths
    (sys : SysState) (assetSync : AssetSync) (dact : AttachmentDownloadParams)
    (uact : AttachmentUploadParams) (session : SessionState)
    (r : DownloadStartResult) (u : UploadStartResult)
    (hdl : attachmentDownloadStart sys assetSync dact session = Except.ok r)
    (hvfs : r.vfs_launched = false)
    (hup : attachmentUploadStart sys uact r.session = Except.ok u) :
    u.run_task.step_script.actions.onRun.args.get? 5 = some "-mm" ∧
    u.run_task.step_script.actions.onRun.args.get? 6 =
      some (jsonDumps r.session.manifest_paths_by_root) ∧
    r.session.manifest_paths_by_root =
      assetSync.check_and_write_local_manifests
        (downloadMergedManifests assetSync dact session)
        session.working_directory ∧
    u.session = r.session := by
  have hchar := downloadStart_nonvfs_manifest_paths sys assetSync dact session r
    hdl hvfs
  unfold attachmentUploadStart at hup
  simp only [bind, Except.bind] at hup
  repeat' split at hup
  all_goals try (cases hup)
  exact ⟨rfl, rfl, hchar, rfl⟩

/-- Concrete upload parameters. -/
def cUploadParams : AttachmentUploadParams :=
  { id := "sessionaction-up", step_id := "step-1", task_id := "task-1" }

/-- The result of the concrete upload run on the session left by the
concrete download. -/
def cUploadResult2 : UploadStartResult :=
  { session := cDownloadResult.session
    run_task :=
      { step_script := attachmentUploadStepScript cSys
          [("/assets", "/sessions/session-1/manifest-1.json")]
          { s3BucketName := "mybucket", rootPfx := "DeadlineCloud" }
        task_parameter_values := []
        os_env_vars := some
          [("DEADLINE_SESSIONACTION_ID", "sessionaction-up"),
           ("DEADLINE_STEP_ID", "step-1"),
           ("DEADLINE_TASK_ID", "task-1")] } }

/-- Witness for C4 at the concrete download-then-upload chain. -/
theorem upload_serializes_download_manifest_paths_witness :
    cUploadResult2.run_task.step_script.actions.onRun.args.get? 5 =
      some "-mm" ∧
    cUploadResult2.run_task.step_script.actions.onRun.args.get? 6 =
      some (jsonDumps cDownloadResult.session.manifest_paths_by_root) ∧
    cDownloadResult.session.manifest_paths_by_root =
      cAssetSync.check_and_write_local_manifests
        (downloadMergedManifests cAssetSync cDownloadParams cSession)
        cSession.working_directory ∧
    cUploadResult2.session = cDownloadResult.session :=
  upload_serializes_download_manifest_paths cSys cAssetSync cDownloadParams
    cUploadParams cSession cDownloadResult cUploadResult2
    (by decide) (by decide) (by decide)

/-- The result of the concrete upload run directly on `cSession`. -/
def cUploadResult : UploadStartResult :=
  { session := cSession
    run_task :=
      { step_script := attachmentUploadStepScript cSys []
          { s3BucketName := "mybucket", rootPfx := "DeadlineCloud" }
        task_parameter_values := []
        os_env_vars := some
          [("DEADLINE_SESSIONACTION_ID", "sessionaction-up"),
           ("DEADLINE_STEP_ID", "step-1"),
           ("DEADLINE_TASK_ID", "task-1")] } }

/-- C7 counterexample: the environment variables the upload run sets do
not include `SESSIONACTION_ID`, `STEP_ID`, or `TASK_ID`; the names carry
the `DEADLINE_` prefix. -/
theorem upload_env_var_names_counterexample :
    (attachmentUploadStart cSys cUploadParams cSession).map
        (fun u =>
          ((u.run_task.os_env_vars.getD []).lookup "SESSIONACTION_ID",
           (u.run_task.os_env_vars.getD []).lookup "STEP_ID",
           (u.run_task.os_env_vars.getD []).lookup "TASK_ID",
           (u.run_task.os_env_vars.getD []).lookup "DEADLINE_SESSIONACTION_ID")) =
      Except.ok (none, none, none, some "sessionaction-up") := by
  decide

/-- C7 amended: every successful `AttachmentUploadAction.start` runs the
step-script with exactly the environment variables
`DEADLINE_SESSIONACTION_ID`, `DEADLINE_STEP_ID` and `DEADLINE_TASK_ID`,
bound respectively to the action id, its step id and its task id. -/
theorem upload_env_vars_deadline_prefixed
    (sys : SysState) (act : AttachmentUploadParams) (session : SessionState)
    (u : UploadStartResult)
    (h : attachmentUploadStart sys act session = Except.ok u) :
    u.run_task.os_env_vars = some
      [("DEADLINE_SESSIONACTION_ID", act.id),
       ("DEADLINE_STEP_ID", act.step_id),
       ("DEADLINE_TASK_ID", act.task_id)] := by
  unfold attachmentUploadStart at h
  simp only [bind, Except.bind] at h
  repeat' split at h
  all_goals try (cases h)
  rfl

/-- Witness for C7 amended at the concrete upload. -/
theorem upload_env_vars_deadline_prefixed_witness :
    cUploadResult.run_task.os_env_vars = some
      [("DEADLINE_SESSIONACTION_ID", cUploadParams.id),
       ("DEADLINE_STEP_ID", cUploadParams.step_id),
       ("DEADLINE_TASK_ID", cUploadParams.task_id)] :=
  upload_env_vars_deadline_prefixed cSys cUploadParams cSession cUploadResult
    (by decide)

/-- C5: step-script assembly is a pure function of the action parameters
and the session snapshot for every action kind: the assembled script does
not depend on the threaded session, and assembly returns the session
unchanged — in particular the job-details and job-attachment-details
caches are untouched. -/
theorem step_script_assembly_pure (sys : SysState) (inp : AssemblyInput)
    (s1 s2 : SessionState) :
    (assembleStepScript sys inp s1).1 = (assembleStepScript sys inp s2).1 ∧
    (assembleStepScript sys inp s1).2 = s1 ∧
    (assembleStepScript sys inp s1).2.job_details = s1.job_details ∧
    (assembleStepScript sys inp s1).2.job_attachment_details =
      s1.job_attachment_details := by
  cases inp <;> exact ⟨rfl, rfl, rfl, rfl⟩

/-- C3: for every worker setting, the value used is the command-line
(init) value when present, otherwise the environment-variable value,
otherwise the config-file value — and the config source is consulted only
when the config file exists; the environment-variable names carry the
`DEADLINE_WORKER_` prefix. -/
theorem worker_settings_precedence
    (init_settings env_settings : SettingsSource)
    (config : Except ConfigLoadError SettingsSource) (name : SettingName) :
    buildValues (customise_sources init_settings env_settings config) name =
      (init_settings name).orElse (fun _ =>
        (env_settings name).orElse (fun _ =>
          match config with
          | .ok config_file => config_file name
          | .error _ => none)) ∧
    strStartsWith "DEADLINE_WORKER_" (SettingName.envVarName name) = true := by
  constructor
  · cases config with
    | ok cfg =>
      cases hc : cfg name <;>
        simp [buildValues, customise_sources, hc, Option.orElse]
    | error e => simp [buildValues, customise_sources, Option.orElse]
  · cases name <;> decide

/-- C10: when `ConfigFile.load` raises `FileNotFoundError`, the settings
sources silently reduce to init arguments followed by environment
variables, no config-file source is consulted, and `WorkerSettings`
construction proceeds over those two sources alone. -/
theorem missing_config_file_reduces_sources
    (init_settings env_settings : SettingsSource) (e : ConfigLoadError) :
    customise_sources init_settings env_settings (Except.error e) =
      [init_settings, env_settings] ∧
    (∀ name,
      buildValues (customise_sources init_settings env_settings (Except.error e))
          name =
        (init_settings name).orElse (fun _ => env_settings name)) ∧
    mkWorkerSettings init_settings env_settings (Except.error e) =
      validateWorkerSettings (buildValues [init_settings, env_settings]) := by
  refine ⟨rfl, ?_, rfl⟩
  intro name
  cases hi : init_settings name <;> cases he : env_settings name <;>
    simp [buildValues, customise_sources, hi, he, Option.orElse]

/-- A settings source offering only `farm_id` and `fleet_id`. -/
def minimalFarmFleetSource (f l : String) : SettingsSource := fun name =>
  match name with
  | .farm_id => some (.str f)
  | .fleet_id => some (.str l)
  | _ => none

/-- C8: `WorkerSettings` validation fails when `farm_id` or `fleet_id` is
absent; success requires each to be a string matching its
`entity-[a-z0-9]` 32-character pattern; and every other option may be
omitted (a source offering only the two ids validates exactly when both
match their patterns). -/
theorem worker_settings_required_ids (v : SettingsSource) (f l : String) :
    ((v SettingName.farm_id = none ∨ v SettingName.fleet_id = none) →
      (validateWorkerSettings v).isOk = false) ∧
    ((validateWorkerSettings v).isOk = true →
      ∃ fs ls, v SettingName.farm_id = some (SettingValue.str fs) ∧
        entityIdPattern "farm" fs = true ∧
        v SettingName.fleet_id = some (SettingValue.str ls) ∧
        entityIdPattern "fleet" ls = true) ∧
    (validateWorkerSettings (minimalFarmFleetSource f l)).isOk =
      (entityIdPattern "farm" f && entityIdPattern "fleet" l) := by
  refine ⟨?_, ?_, ?_⟩
  · intro hmiss
    rcases hmiss with hf | hl
    · simp [validateWorkerSettings, hf, bind, Except.bind, pure, Except.pure, Except.isOk, Except.toBool]
    · cases hf : v SettingName.farm_id with
      | none => simp [validateWorkerSettings, hf, bind, Except.bind, pure, Except.pure, Except.isOk, Except.toBool]
      | some val =>
        cases val with
        | str s =>
          by_cases hp : entityIdPattern "farm" s = true
          · simp [validateWorkerSettings, hf, hl, hp, bind, Except.bind, pure, Except.pure, Except.isOk, Except.toBool]
          · simp [validateWorkerSettings, hf, hp, bind, Except.bind, pure, Except.pure, Except.isOk, Except.toBool]
        | bool b => simp [validateWorkerSettings, hf, bind, Except.bind, pure, Except.pure, Except.isOk, Except.toBool]
        | caps c => simp [validateWorkerSettings, hf, bind, Except.bind, pure, Except.pure, Except.isOk, Except.toBool]
  · intro hok
    cases hf : v SettingName.farm_id with
    | none => simp [validateWorkerSettings, hf, bind, Except.bind, pure, Except.pure, Except.isOk, Except.toBool] at hok
    | some val =>
      cases val with
      | str s =>
        by_cases hp : entityIdPattern "farm" s = true
        · cases hl : v SettingName.fleet_id with
          | none =>
            simp [validateWorkerSettings, hf, hp, hl, bind, Except.bind, pure, Except.pure, Except.isOk, Except.toBool] at hok
          | some lval =>
            cases lval with
            | str ls =>
              by_cases hq : entityIdPattern "fleet" ls = true
              · exact ⟨s, ls, rfl, hp, rfl, hq⟩
              · simp [validateWorkerSettings, hf, hp, hl, hq, bind, Except.bind, pure,
                  Except.pure, Except.isOk, Except.toBool] at hok
            | bool b =>
              simp [validateWorkerSettings, hf, hp, hl, bind, Except.bind, pure, Except.pure, Except.isOk, Except.toBool] at hok
            | caps c =>
              simp [validateWorkerSettings, hf, hp, hl, bind, Except.bind, pure, Except.pure, Except.isOk, Except.toBool] at hok
        · simp [validateWorkerSettings, hf, hp, bind, Except.bind, pure, Except.pure, Except.isOk, Except.toBool] at hok
      | bool b => simp [validateWorkerSettings, hf, bind, Except.bind, pure, Except.pure, Except.isOk, Except.toBool] at hok
      | caps c => simp [validateWorkerSettings, hf, bind, Except.bind, pure, Except.pure, Except.isOk, Except.toBool] at hok
  · by_cases hp : entityIdPattern "farm" f = true <;>
      by_cases hq : entityIdPattern "fleet" l = true <;>
        simp [validateWorkerSettings, minimalFarmFleetSource, hp, hq, bind,
          Except.bind, pure, Except.pure, Except.isOk, Except.toBool]

/-- A valid farm id for the witness. -/
def cFarmId : String := "farm-0123456789abcdef0123456789abcdef"

/-- A valid fleet id for the witness. -/
def cFleetId : String := "fleet-0123456789abcdef0123456789abcdef"

/-- A settings source carrying a farm id but no fleet id. -/
def cInitSource : SettingsSource := fun name =>
  match name with
  | .farm_id => some (.str cFarmId)
  | _ => none

/-- Witness for C8: a missing fleet id fails validation; a source with
only the two (pattern-valid) ids validates successfully. -/
theorem worker_settings_required_ids_witness :
    (validateWorkerSettings cInitSource).isOk = false ∧
    (validateWorkerSettings (minimalFarmFleetSource cFarmId cFleetId)).isOk =
      (entityIdPattern "farm" cFarmId && entityIdPattern "fleet" cFleetId) ∧
    (entityIdPattern "farm" cFarmId && entityIdPattern "fleet" cFleetId) = true ∧
    (∃ fs ls,
      minimalFarmFleetSource cFarmId cFleetId SettingName.farm_id =
        some (SettingValue.str fs) ∧
      entityIdPattern "farm" fs = true ∧
      minimalFarmFleetSource cFarmId cFleetId SettingName.fleet_id =
        some (SettingValue.str ls) ∧
      entityIdPattern "fleet" ls = true) :=
  ⟨(worker_settings_required_ids cInitSource cFarmId cFleetId).1 (Or.inr rfl),
   (worker_settings_required_ids cInitSource cFarmId cFleetId).2.2,
   by decide,
   (worker_settings_required_ids (minimalFarmFleetSource cFarmId cFleetId)
      cFarmId cFleetId).2.1 (by decide)⟩

/-- C6: the recognized worker settings include no `windows_job_user`
field, the daemon argument parser registers no `--windows-job-user` flag,
and the parsed-arguments namespace declares no such attribute — contrary
to the spec table and to the expectations of the e2e and integ tests of
the repository itself. -/
theorem windows_job_user_not_recognized :
    (worker_settings_field_names.contains "windows_job_user",
     argument_parser_option_strings.contains "--windows-job-user",
     parsed_command_line_argument_names.contains "windows_job_user") =
      (false, false, false) := by
  decide

end DWA
